import Mathlib

/-
Verification of the mcp-ghost tool-name adaptation layer, response
formatter and orchestration entry point, as a shallow embedding in Lean.
Python strings are modelled as Lean strings (lists of unicode scalar
values); Python dicts are modelled as association lists where insertion
updates the first binding of an existing key in place; machine floats
appearing in the code (timeouts, execution times, success rates) are
modelled as rationals.
-/

set_option autoImplicit false

namespace MCPGhost

/-! ## Character classes used by the name adapter (tools/adapter.py) -/

/-- The character class of the regex used by to_openai_compatible:
a-z, A-Z, 0-9, underscore and hyphen, on code points. -/
def isOpenAIChar (c : Char) : Bool :=
  (decide (97 ≤ c.toNat) && decide (c.toNat ≤ 122)) ||
  (decide (65 ≤ c.toNat) && decide (c.toNat ≤ 90)) ||
  (decide (48 ≤ c.toNat) && decide (c.toNat ≤ 57)) ||
  c = '_' || c = '-'

/-- The character class of the regex used by to_gemini_compatible:
a-z, A-Z, 0-9 and underscore, without the hyphen. -/
def isGeminiChar (c : Char) : Bool :=
  (decide (97 ≤ c.toNat) && decide (c.toNat ≤ 122)) ||
  (decide (65 ≤ c.toNat) && decide (c.toNat ≤ 90)) ||
  (decide (48 ≤ c.toNat) && decide (c.toNat ≤ 57)) ||
  c = '_'

/-- One step of re.sub applied by to_openai_compatible: a character in the
allowed class is kept, every other character becomes an underscore. -/
def sanitizeOpenAIChar (c : Char) : Char :=
  if isOpenAIChar c then c else '_'

/-- One step of re.sub applied by to_gemini_compatible. -/
def sanitizeGeminiChar (c : Char) : Char :=
  if isGeminiChar c then c else '_'

/-- The OpenAI tool-name grammar from the docstring of
to_openai_compatible, as a boolean predicate: one or more characters,
each in the class a-z A-Z 0-9 underscore hyphen. -/
def matchesOpenAIPattern (s : String) : Bool :=
  !s.data.isEmpty && s.data.all isOpenAIChar

/-- A code point in the ASCII range. -/
def isASCIIChar (c : Char) : Bool :=
  decide (c.toNat ≤ 127)

/-- Every character of the string is ASCII. -/
def isASCIIString (s : String) : Bool :=
  s.data.all isASCIIChar

/-! ## ToolNameAdapter operations (tools/adapter.py) -/

/-- to_openai_compatible from tools/adapter.py: concatenate namespace and
name with an underscore separator, then replace every character outside
the class a-z A-Z 0-9 underscore hyphen with an underscore. -/
def to_openai_compatible (ns name : String) : String :=
  String.mk ((ns.data ++ '_' :: name.data).map sanitizeOpenAIChar)

/-- to_anthropic_compatible from tools/adapter.py: the dotted form, with
no sanitization. -/
def to_anthropic_compatible (ns name : String) : String :=
  ns ++ "." ++ name

/-- to_gemini_compatible from tools/adapter.py: like the OpenAI form but
the hyphen is also replaced. -/
def to_gemini_compatible (ns name : String) : String :=
  String.mk ((ns.data ++ '_' :: name.data).map sanitizeGeminiChar)

/-- Split a character list at its first underscore, if any: the Python
expression openai_name.split with maxsplit one, guarded by the membership
test used in from_openai_compatible. -/
def splitFirstUnderscore : List Char → Option (List Char × List Char)
  | [] => none
  | c :: rest =>
    if c = '_' then some ([], rest)
    else
      match splitFirstUnderscore rest with
      | none => none
      | some (a, b) => some (c :: a, b)

/-- from_openai_compatible from tools/adapter.py: when the input contains
an underscore, split at the first one and rejoin with a dot; otherwise
return the input unchanged. -/
def from_openai_compatible (openai_name : String) : String :=
  match splitFirstUnderscore openai_name.data with
  | some (a, b) => String.mk (a ++ '.' :: b)
  | none => openai_name

/-- One step of Python str.lower restricted to the ASCII letters, the
only characters relevant to the provider identifiers compared against. -/
def lowerChar (c : Char) : Char :=
  if 65 ≤ c.toNat ∧ c.toNat ≤ 90 then Char.ofNat (c.toNat + 32) else c

/-- The provider.lower() call in adapt_for_provider. -/
def str_lower (s : String) : String :=
  String.mk (s.data.map lowerChar)

/-- adapt_for_provider from tools/adapter.py: lower-case the provider
name, dispatch to the per-provider converter, and default to the dotted
form for unrecognized providers. -/
def adapt_for_provider (ns name provider : String) : String :=
  if str_lower provider = "openai" then to_openai_compatible ns name
  else if str_lower provider = "anthropic" then to_anthropic_compatible ns name
  else if str_lower provider = "gemini" then to_gemini_compatible ns name
  else ns ++ "." ++ name

/-- Modelled from the spec: the ToolInfo record of tools/models.py is not
under src; its identity is the pair of namespace and name, the only
fields the adapter operations consume. The field namespace is renamed
tool_namespace because namespace is a Lean keyword. -/
structure ToolInfo where
  tool_namespace : String
  name : String
  deriving DecidableEq

/-- Python dict assignment on an association list: the first binding of
an existing key is updated in place, a new key is appended at the end. -/
def dictInsert : List (String × String) → String → String → List (String × String)
  | [], k, v => [(k, v)]
  | p :: rest, k, v =>
    if p.1 = k then (k, v) :: rest else p :: dictInsert rest k v

/-- Python dict lookup on an association list built by dictInsert. -/
def dictLookup : List (String × String) → String → Option String
  | [], _ => none
  | p :: rest, k => if p.1 = k then some p.2 else dictLookup rest k

/-- build_mapping from tools/adapter.py: for each tool in list order,
assign the provider-compatible name the canonical dotted name, starting
from the empty dict. -/
def build_mapping (tools : List ToolInfo) (provider : String) : List (String × String) :=
  tools.foldl
    (fun mapping tool =>
      dictInsert mapping (adapt_for_provider tool.tool_namespace tool.name provider)
        (tool.tool_namespace ++ "." ++ tool.name))
    []

/-- The canonical dotted name of the last tool in the list whose
provider-compatible name is k, if any: the value the Python dict holds at
key k after the build_mapping loop, since later assignments win. -/
def lastCanonical (tools : List ToolInfo) (provider k : String) : Option String :=
  tools.foldl
    (fun acc t =>
      if adapt_for_provider t.tool_namespace t.name provider = k
      then some (t.tool_namespace ++ "." ++ t.name) else acc)
    none

/-- A character that survives openai sanitization unchanged and is not an
underscore: the domain on which the openai round trip is exact. -/
def roundTripChar (c : Char) : Bool :=
  isOpenAIChar c && !(c = '_')

/-! ## Python values (tool results, config payloads)

Modelled from the spec: tool-execution return values are heterogeneous
JSON-compatible Python values; vObj stands for any value that structural
JSON serialization rejects, such as a non-serializable object graph or a
self-referential circular structure, carrying the text of its plain
string representation. Floats are not needed by any formatter claim and
are omitted from this value universe. -/
inductive Value where
  | vNone : Value
  | vBool (b : Bool) : Value
  | vInt (n : Int) : Value
  | vStr (s : String) : Value
  | vList (xs : List Value) : Value
  | vDict (kvs : List (String × Value)) : Value
  | vObj (s : String) : Value

/-- Python dict lookup for a value dict. -/
def dictGet : List (String × Value) → String → Option Value
  | [], _ => none
  | p :: rest, k => if p.1 = k then some p.2 else dictGet rest k

mutual

/-- Modelled from the spec: Python repr of a value, used inside the
plain string representation of containers. The spec fixes only that the
fallback is the plain string representation of the value; the container
rendering here follows the usual Python repr shape. -/
def py_repr : Value → String
  | .vNone => "None"
  | .vBool b => if b then "True" else "False"
  | .vInt n => toString n
  | .vStr s => "'" ++ s ++ "'"
  | .vList xs => "[" ++ py_repr_items xs ++ "]"
  | .vDict kvs => "\x7b" ++ py_repr_fields kvs ++ "\x7d"
  | .vObj s => s

def py_repr_items : List Value → String
  | [] => ""
  | [v] => py_repr v
  | v :: rest => py_repr v ++ ", " ++ py_repr_items rest

def py_repr_fields : List (String × Value) → String
  | [] => ""
  | [(k, v)] => "'" ++ k ++ "': " ++ py_repr v
  | (k, v) :: rest => "'" ++ k ++ "': " ++ py_repr v ++ ", " ++ py_repr_fields rest

end

/-- Python str of a value: the string itself for strings, repr shape for
everything else. -/
def py_str : Value → String
  | .vStr s => s
  | v => py_repr v

/-- One character of the escaping done by the json serializer for string
payloads. -/
def jsonEscapeChar (c : Char) : String :=
  if c = '"' then "\\\""
  else if c = '\\' then "\\\\"
  else if c = '\n' then "\\n"
  else String.mk [c]

/-- A json string literal. -/
def jsonQuote (s : String) : String :=
  "\"" ++ String.join (s.data.map jsonEscapeChar) ++ "\""

mutual

/-- Modelled from the spec: structural JSON serialization of a value in
the json.dumps style, returning none exactly when the value contains a
non-serializable component, the situation in which json.dumps raises. -/
def jsonSerialize : Value → Option String
  | .vNone => some "null"
  | .vBool b => some (if b then "true" else "false")
  | .vInt n => some (toString n)
  | .vStr s => some (jsonQuote s)
  | .vList xs =>
    match jsonSerializeItems xs with
    | some s => some ("[" ++ s ++ "]")
    | none => none
  | .vDict kvs =>
    match jsonSerializeFields kvs with
    | some s => some ("\x7b" ++ s ++ "\x7d")
    | none => none
  | .vObj _ => none

def jsonSerializeItems : List Value → Option String
  | [] => some ""
  | [v] => jsonSerialize v
  | v :: rest =>
    match jsonSerialize v, jsonSerializeItems rest with
    | some s, some t => some (s ++ ", " ++ t)
    | _, _ => none

def jsonSerializeFields : List (String × Value) → Option String
  | [] => some ""
  | [(k, v)] =>
    match jsonSerialize v with
    | some s => some (jsonQuote k ++ ": " ++ s)
    | none => none
  | (k, v) :: rest =>
    match jsonSerialize v, jsonSerializeFields rest with
    | some s, some t => some (jsonQuote k ++ ": " ++ s ++ ", " ++ t)
    | _, _ => none

end

/-! ## ResponseFormatter (tools/formatter.py is not under src)

Modelled from the spec: tools/formatter.py itself is absent from src;
only its tests are present. The normalization algorithm below follows
the spec, section 4.2, with one refinement the tests of the repository
fix: the text-record shortcut applies only to non-empty sequences, since
the tests require the empty list to serialize to its json form. -/

/-- A text record: a mapping whose type key holds the string text and
which has a text key. -/
def isTextRecord : Value → Bool
  | .vDict kvs =>
    (match dictGet kvs "type" with
     | some (.vStr s) => s = "text"
     | _ => false) &&
    (dictGet kvs "text").isSome
  | _ => false

/-- The text field of a text record. -/
def textField : Value → String
  | .vDict kvs =>
    (match dictGet kvs "text" with
     | some (.vStr s) => s
     | some w => py_str w
     | none => "")
  | w => py_str w

/-- Join with newline separators. -/
def joinNewline : List String → String
  | [] => ""
  | [s] => s
  | s :: rest => s ++ "\n" ++ joinNewline rest

/-- Serialization with the never-raising fallback: the json text when
serialization succeeds, the plain string representation otherwise. -/
def fallbackSerialize (v : Value) : String :=
  match jsonSerialize v with
  | some s => s
  | none => py_str v

/-- Modelled from the spec: format_tool_response of tools/formatter.py.
A string is returned unchanged; a non-empty sequence of text records
yields the text fields joined with newlines; None yields the literal
text None; everything else is json-serialized with fallback to the plain
string representation. -/
def format_tool_response : Value → String
  | .vStr s => s
  | .vList xs =>
    if !xs.isEmpty && xs.all isTextRecord then joinNewline (xs.map textField)
    else fallbackSerialize (.vList xs)
  | .vNone => "None"
  | v => fallbackSerialize v


/-! ## Core data model and orchestration entry point (core.py) -/

/-- MCPGhostConfig from core.py. The field namespace is renamed
tool_namespace because namespace is a Lean keyword; the float fields of
the source are modelled as rationals. -/
structure MCPGhostConfig where
  server_config : List (String × Value)
  system_prompt : String
  provider : String
  api_key : String
  user_prompt : String
  model : Option String := none
  tool_namespace : String := "mcp_ghost"
  timeout : Rat := 30
  max_iterations : Nat := 10
  enable_backtracking : Bool := true
  conversation_memory : Bool := true

/-- ToolCallInfo from core.py: one row per tool call of the loop. -/
structure ToolCallInfo where
  iteration : Nat
  tool_name : String
  arguments : List (String × Value)
  success : Bool
  result : Value := .vNone
  error : Option String := none
  execution_time : Option Rat := none
  reasoning : Option String := none
  retry_attempt : Nat := 0

/-- The token_usage dict of the execution metadata built by mcp_ghost,
which populates a fixed set of keys in both branches. -/
structure TokenUsage where
  prompt_tokens : Nat
  completion_tokens : Nat
  total_tokens : Nat
  deriving DecidableEq

/-- The execution_metadata dict built by mcp_ghost, which populates a
fixed set of keys in both branches. -/
structure ExecutionMetadata where
  total_execution_time : Rat
  total_iterations : Nat
  tools_discovered : Nat
  servers_connected : Nat
  backtrack_count : Nat
  success_rate : Rat
  token_usage : TokenUsage
  deriving DecidableEq

/-- One structured error entry as built by the dependency-failure branch
of mcp_ghost. -/
structure ErrorEntry where
  iteration : Nat
  tool_name : String
  error : String
  recovery_action : String
  deriving DecidableEq

/-- MCPGhostResult from core.py. -/
structure MCPGhostResult where
  success : Bool
  final_result : Value := .vNone
  summary : String := ""
  tool_chain : List ToolCallInfo := []
  conversation_history : List Value := []
  errors : List ErrorEntry := []
  execution_metadata : ExecutionMetadata

/-- mcp_ghost from core.py. The import block at the top of the body
either succeeds or raises ImportError; the parameter missing_dependency
carries the message of that ImportError when one is raised, an ambient
fact about the installed environment rather than part of the
configuration. The body is the placeholder of the source: a fixed
failure result when a dependency is missing, a fixed placeholder success
result otherwise. -/
def mcp_ghost (missing_dependency : Option String) (config : MCPGhostConfig) :
    MCPGhostResult :=
  match missing_dependency with
  | some e =>
    { success := false
      summary := "Failed to import required dependencies"
      errors := [{ iteration := 0, tool_name := "system",
                   error := "Missing dependency: " ++ e,
                   recovery_action := "Install required dependencies" }]
      execution_metadata :=
        { total_execution_time := 0, total_iterations := 0, tools_discovered := 0,
          servers_connected := 0, backtrack_count := 0, success_rate := 0,
          token_usage := { prompt_tokens := 0, completion_tokens := 0, total_tokens := 0 } } }
  | none =>
    { success := true
      final_result := .vStr "Placeholder implementation - functionality not yet implemented"
      summary := "MCP-Ghost placeholder execution completed"
      tool_chain := []
      conversation_history := []
      errors := []
      execution_metadata :=
        { total_execution_time := 1/10, total_iterations := 0, tools_discovered := 0,
          servers_connected := 0, backtrack_count := 0, success_rate := 1,
          token_usage := { prompt_tokens := 0, completion_tokens := 0, total_tokens := 0 } } }

/-- A concrete configuration used by witnesses: one sqlite server and
the openai provider. -/
def exampleConfig : MCPGhostConfig :=
  { server_config := [("sqlite", .vDict [("command", .vStr "uvx")])]
    system_prompt := "You are a helpful assistant."
    provider := "openai"
    api_key := "test-key"
    user_prompt := "List the tables." }

/-- A concrete configuration whose provider string is not one of openai,
anthropic or gemini in any casing. -/
def badProviderConfig : MCPGhostConfig :=
  { server_config := []
    system_prompt := "system"
    provider := "not_a_real_provider"
    api_key := "key"
    user_prompt := "prompt" }
/-! ## Helper lemmas for the adapter -/

lemma isOpenAIChar_sanitizeOpenAIChar (c : Char) :
    isOpenAIChar (sanitizeOpenAIChar c) = true := by
  rw [sanitizeOpenAIChar]
  split
  · assumption
  · decide

lemma toNat_le_of_isOpenAIChar (c : Char) (h : isOpenAIChar c = true) :
    c.toNat ≤ 127 := by
  unfold isOpenAIChar at h
  simp only [Bool.or_eq_true, Bool.and_eq_true, decide_eq_true_eq] at h
  rcases h with ((((⟨h1, h2⟩ | ⟨h1, h2⟩) | ⟨h1, h2⟩) | h) | h)
  · omega
  · omega
  · omega
  · subst h; decide
  · subst h; decide

lemma splitFirstUnderscore_append (a b : List Char) (h : '_' ∉ a) :
    splitFirstUnderscore (a ++ '_' :: b) = some (a, b) := by
  induction a with
  | nil => simp [splitFirstUnderscore]
  | cons c a ih =>
    have hc : ¬ c = '_' := fun e => h (e ▸ List.mem_cons_self c a)
    have ha : '_' ∉ a := fun m => h (List.mem_cons_of_mem c m)
    simp only [List.cons_append, splitFirstUnderscore, if_neg hc]
    rw [show List.append a ('_' :: b) = a ++ '_' :: b from rfl, ih ha]

lemma map_sanitizeOpenAIChar_id (l : List Char)
    (h : ∀ c ∈ l, isOpenAIChar c = true) :
    l.map sanitizeOpenAIChar = l := by
  induction l with
  | nil => rfl
  | cons c l ih =>
    have hc := h c (List.mem_cons_self c l)
    have hl := ih fun x hx => h x (List.mem_cons_of_mem c hx)
    simp [sanitizeOpenAIChar, hc, hl]

lemma string_mk_dot_append (ns name : String) :
    String.mk (ns.data ++ '.' :: name.data) = ns ++ "." ++ name := by
  cases ns with
  | mk l =>
    cases name with
    | mk m =>
      show String.mk (l ++ '.' :: m) = String.mk ((l ++ ".".data) ++ m)
      rw [show ".".data = ['.'] from rfl, List.append_assoc]
      rfl

lemma dictLookup_dictInsert (m : List (String × String)) (key v k : String) :
    dictLookup (dictInsert m key v) k =
      if key = k then some v else dictLookup m k := by
  induction m with
  | nil => simp [dictInsert, dictLookup]
  | cons p rest ih =>
    by_cases hp : p.1 = key
    · rw [dictInsert, if_pos hp]
      by_cases hk : key = k
      · simp [dictLookup, hk]
      · have hpk : ¬ p.1 = k := by rw [hp]; exact hk
        simp [dictLookup, hk, hpk]
    · rw [dictInsert, if_neg hp]
      by_cases hpk : p.1 = k
      · have hk : ¬ key = k := fun e => hp (hpk.trans e.symm)
        simp [dictLookup, hpk, if_neg hk]
      · simp [dictLookup, hpk, ih]

lemma dictLookup_build_aux (provider k : String) (ts : List ToolInfo) :
    ∀ m : List (String × String),
      dictLookup
        (ts.foldl
          (fun mapping tool =>
            dictInsert mapping (adapt_for_provider tool.tool_namespace tool.name provider)
              (tool.tool_namespace ++ "." ++ tool.name)) m) k =
      ts.foldl
        (fun acc t =>
          if adapt_for_provider t.tool_namespace t.name provider = k
          then some (t.tool_namespace ++ "." ++ t.name) else acc)
        (dictLookup m k) := by
  induction ts with
  | nil => intro m; rfl
  | cons t ts ih =>
    intro m
    rw [List.foldl_cons, List.foldl_cons, ih, dictLookup_dictInsert]

lemma lastCanonical_step_isSome (provider k : String) (ts : List ToolInfo)
    (acc : Option String) (h : acc.isSome = true) :
    (ts.foldl
      (fun acc t =>
        if adapt_for_provider t.tool_namespace t.name provider = k
        then some (t.tool_namespace ++ "." ++ t.name) else acc)
      acc).isSome = true := by
  induction ts generalizing acc with
  | nil => exact h
  | cons t ts ih =>
    rw [List.foldl_cons]
    apply ih
    split
    · rfl
    · exact h

lemma lastCanonical_mem_aux (provider k : String) (t : ToolInfo)
    (ht : adapt_for_provider t.tool_namespace t.name provider = k)
    (ts : List ToolInfo) (h : t ∈ ts) :
    ∀ acc : Option String,
      (ts.foldl
        (fun acc u =>
          if adapt_for_provider u.tool_namespace u.name provider = k
          then some (u.tool_namespace ++ "." ++ u.name) else acc)
        acc).isSome = true := by
  induction ts with
  | nil => cases h
  | cons u ts ih =>
    intro acc
    rw [List.foldl_cons]
    rcases List.mem_cons.mp h with rfl | hmem
    · apply lastCanonical_step_isSome
      rw [if_pos ht]
      rfl
    · exact ih hmem _

lemma lastCanonical_isSome_of_mem (provider : String) (ts : List ToolInfo)
    (t : ToolInfo) (h : t ∈ ts) :
    (lastCanonical ts provider
      (adapt_for_provider t.tool_namespace t.name provider)).isSome = true :=
  lastCanonical_mem_aux provider _ t rfl ts h none

example : to_openai_compatible "sqlite" "list_tables" = "sqlite_list_tables" := by decide
example : to_openai_compatible "my.namespace" "tool.name" = "my_namespace_tool_name" := by decide
example : to_gemini_compatible "ns.special" "tool@name" = "ns_special_tool_name" := by decide
example : to_anthropic_compatible "sqlite" "list_tables" = "sqlite.list_tables" := by decide
example : from_openai_compatible "sqlite_list_tables" = "sqlite.list_tables" := by decide
example : from_openai_compatible "tool" = "tool" := by decide
example : from_openai_compatible "complex_namespace_tool_name" = "complex.namespace_tool_name" := by decide
example : adapt_for_provider "sqlite" "list_tables" "OPENAI" = "sqlite_list_tables" := by decide
example : adapt_for_provider "sqlite" "list_tables" "unknown" = "sqlite.list_tables" := by decide

example :
    format_tool_response (.vList [.vDict [("type", .vStr "text"), ("text", .vStr "Line 1")],
      .vDict [("type", .vStr "text"), ("text", .vStr "Line 2")],
      .vDict [("type", .vStr "text"), ("text", .vStr "Line 3")]]) =
      "Line 1\nLine 2\nLine 3" := by decide
example : format_tool_response .vNone = "None" := by decide
example : format_tool_response (.vInt 42) = "42" := by decide
example : format_tool_response (.vStr "") = "" := by decide
example : format_tool_response (.vList []) = "[]" := by decide
example : format_tool_response (.vDict []) = "\x7b\x7d" := by decide
example : format_tool_response (.vDict [("key", .vStr "value"), ("number", .vInt 42)]) =
    "\x7b\"key\": \"value\", \"number\": 42\x7d" := by decide
example : format_tool_response (.vDict [("data", .vObj "non-serializable object")]) =
    "\x7b'data': non-serializable object\x7d" := by decide


example : (mcp_ghost none exampleConfig).success = true := rfl
example : (mcp_ghost (some "chuk_tool_processor") exampleConfig).success = false := rfl
example : (mcp_ghost none exampleConfig).execution_metadata.success_rate = 1 := rfl
/-! ## Claims C1 to C5 -/

/-- C1: for every pair of strings, to_openai_compatible equals the
underscore-joined concatenation with every character outside the class
a-z A-Z 0-9 underscore hyphen replaced by an underscore, and the output
always matches the pattern of one or more such characters and is pure
ASCII, including for unicode, empty and very long inputs. -/
theorem c1_to_openai_compatible_pattern (ns name : String) :
    to_openai_compatible ns name =
      String.mk ((ns.data ++ '_' :: name.data).map sanitizeOpenAIChar) ∧
    matchesOpenAIPattern (to_openai_compatible ns name) = true ∧
    isASCIIString (to_openai_compatible ns name) = true := by
  refine ⟨rfl, ?_, ?_⟩
  · simp only [to_openai_compatible, matchesOpenAIPattern, Bool.and_eq_true,
      List.all_eq_true]
    refine ⟨?_, ?_⟩
    · simp
    · intro c hc
      rcases List.mem_map.mp hc with ⟨d, _, rfl⟩
      exact isOpenAIChar_sanitizeOpenAIChar d
  · simp only [to_openai_compatible, isASCIIString, List.all_eq_true]
    intro c hc
    rcases List.mem_map.mp hc with ⟨d, _, rfl⟩
    rw [isASCIIChar, decide_eq_true_eq]
    exact toNat_le_of_isOpenAIChar _ (isOpenAIChar_sanitizeOpenAIChar d)

/-- C2 counterexample: the namespace a.b and the name c are ASCII and
underscore-free, yet the openai round trip returns a.b_c instead of the
dotted concatenation a.b.c, because the dot in the namespace is itself
sanitized to an underscore. The claimed domain is therefore too large. -/
theorem c2_roundtrip_counterexample :
    isASCIIString "a.b" = true ∧
    ("a.b" : String).data.all (fun c => !(c = '_')) = true ∧
    isASCIIString "c" = true ∧
    ("c" : String).data.all (fun c => !(c = '_')) = true ∧
    from_openai_compatible (to_openai_compatible "a.b" "c") ≠ "a.b" ++ "." ++ "c" := by
  refine ⟨by decide, by decide, by decide, by decide, by decide⟩

/-- C2 amended: when every character of the namespace and of the name is
in the class a-z A-Z 0-9 hyphen, that is, survives openai sanitization
unchanged and is not an underscore, the round trip through
to_openai_compatible and from_openai_compatible yields the dotted
concatenation of namespace and name. -/
theorem c2_roundtrip_amended (ns name : String)
    (h1 : ns.data.all roundTripChar = true)
    (h2 : name.data.all roundTripChar = true) :
    from_openai_compatible (to_openai_compatible ns name) = ns ++ "." ++ name := by
  have h1' : ∀ c ∈ ns.data, isOpenAIChar c = true ∧ ¬ c = '_' := by
    intro c hc
    have h := List.all_eq_true.mp h1 c hc
    rw [roundTripChar, Bool.and_eq_true, Bool.not_eq_true', decide_eq_false_iff_not] at h
    exact h
  have h2' : ∀ c ∈ name.data, isOpenAIChar c = true := by
    intro c hc
    have h := List.all_eq_true.mp h2 c hc
    rw [roundTripChar, Bool.and_eq_true] at h
    exact h.1
  have hmap : (ns.data ++ '_' :: name.data).map sanitizeOpenAIChar =
      ns.data ++ '_' :: name.data := by
    rw [List.map_append]
    congr 1
    · exact map_sanitizeOpenAIChar_id _ fun c hc => (h1' c hc).1
    · rw [List.map_cons, map_sanitizeOpenAIChar_id _ h2',
        show sanitizeOpenAIChar '_' = '_' by decide]
  have hnotin : '_' ∉ ns.data := fun m => (h1' _ m).2 rfl
  have e1 : to_openai_compatible ns name = String.mk (ns.data ++ '_' :: name.data) := by
    rw [to_openai_compatible, hmap]
  rw [e1]
  unfold from_openai_compatible
  rw [show (String.mk (ns.data ++ '_' :: name.data)).data =
      ns.data ++ '_' :: name.data from rfl]
  rw [splitFirstUnderscore_append _ _ hnotin]
  exact string_mk_dot_append ns name

theorem c2_roundtrip_amended_witness :
    ("sqlite" : String).data.all roundTripChar = true ∧
    ("query" : String).data.all roundTripChar = true ∧
    from_openai_compatible (to_openai_compatible "sqlite" "query") =
      "sqlite" ++ "." ++ "query" :=
  ⟨by decide, by decide, c2_roundtrip_amended "sqlite" "query" (by decide) (by decide)⟩

/-- C3: adapt_for_provider dispatches on the lower-cased provider name to
the openai, anthropic or gemini converter, every other provider yields
the dotted concatenation, and the anthropic converter is exactly the
dotted concatenation with no character substitution. -/
theorem c3_adapt_for_provider_dispatch (ns name provider : String) :
    (str_lower provider = "openai" →
      adapt_for_provider ns name provider = to_openai_compatible ns name) ∧
    (str_lower provider = "anthropic" →
      adapt_for_provider ns name provider = to_anthropic_compatible ns name) ∧
    (str_lower provider = "gemini" →
      adapt_for_provider ns name provider = to_gemini_compatible ns name) ∧
    (str_lower provider ≠ "openai" → str_lower provider ≠ "anthropic" →
      str_lower provider ≠ "gemini" →
      adapt_for_provider ns name provider = ns ++ "." ++ name) ∧
    to_anthropic_compatible ns name = ns ++ "." ++ name := by
  refine ⟨?_, ?_, ?_, ?_, rfl⟩
  · intro h
    rw [adapt_for_provider, h]
    simp
  · intro h
    rw [adapt_for_provider, h]
    simp
  · intro h
    rw [adapt_for_provider, h]
    simp
  · intro h1 h2 h3
    rw [adapt_for_provider, if_neg h1, if_neg h2, if_neg h3]

theorem c3_adapt_for_provider_dispatch_witness :
    str_lower "ANTHROPIC" = "anthropic" ∧
    adapt_for_provider "sqlite" "read_query" "ANTHROPIC" = "sqlite" ++ "." ++ "read_query" := by
  have h := c3_adapt_for_provider_dispatch "sqlite" "read_query" "ANTHROPIC"
  exact ⟨by decide, (h.2.1 (by decide)).trans h.2.2.2.2⟩

/-- C4: build_mapping maps, for each tool in list order, the
provider-compatible name to the canonical dotted name, with the later
tool winning the slot on collisions, so that looking up any key in the
built dict yields exactly the canonical name of the last tool whose
provider-compatible name is that key; every listed tool has an occupied
slot, and the empty tool list yields the empty dict for every provider. -/
theorem c4_build_mapping_spec (tools : List ToolInfo) (provider : String) :
    build_mapping [] provider = [] ∧
    (∀ k, dictLookup (build_mapping tools provider) k = lastCanonical tools provider k) ∧
    (∀ t ∈ tools,
      (lastCanonical tools provider
        (adapt_for_provider t.tool_namespace t.name provider)).isSome = true) := by
  refine ⟨rfl, ?_, ?_⟩
  · intro k
    rw [build_mapping, lastCanonical]
    exact dictLookup_build_aux provider k tools []
  · intro t ht
    exact lastCanonical_isSome_of_mem provider tools t ht

theorem c4_build_mapping_spec_witness :
    dictLookup (build_mapping [ToolInfo.mk "a.b" "c", ToolInfo.mk "a" "b_c"] "openai")
      "a_b_c" = some ("a" ++ "." ++ "b_c") ∧
    (lastCanonical [ToolInfo.mk "a.b" "c", ToolInfo.mk "a" "b_c"] "openai"
      (adapt_for_provider "a" "b_c" "openai")).isSome = true := by
  have h := c4_build_mapping_spec [ToolInfo.mk "a.b" "c", ToolInfo.mk "a" "b_c"] "openai"
  constructor
  · rw [h.2.1 "a_b_c"]
    decide
  · exact h.2.2 (ToolInfo.mk "a" "b_c") (by simp)

/-- C5: none of the ToolNameAdapter operations raises: each of
to_openai_compatible, to_anthropic_compatible, to_gemini_compatible,
from_openai_compatible, adapt_for_provider and build_mapping is total and
returns a unique, deterministic output for every input, including empty,
unicode and very long strings. -/
theorem c5_adapter_never_raises (ns name provider input : String) (tools : List ToolInfo) :
    (∃! r, to_openai_compatible ns name = r) ∧
    (∃! r, to_anthropic_compatible ns name = r) ∧
    (∃! r, to_gemini_compatible ns name = r) ∧
    (∃! r, from_openai_compatible input = r) ∧
    (∃! r, adapt_for_provider ns name provider = r) ∧
    (∃! m, build_mapping tools provider = m) :=
  ⟨⟨_, rfl, fun _ h => h.symm⟩, ⟨_, rfl, fun _ h => h.symm⟩, ⟨_, rfl, fun _ h => h.symm⟩,
   ⟨_, rfl, fun _ h => h.symm⟩, ⟨_, rfl, fun _ h => h.symm⟩, ⟨_, rfl, fun _ h => h.symm⟩⟩

/-! ## Claims C6 to C10 -/

/-- C6: mcp_ghost never propagates an unhandled exception: for every
configuration and every import outcome it returns a unique well-formed
MCPGhostResult, and when a required dependency is missing the result is
the degenerate failure result with success false and a structured error
entry naming the missing dependency. -/
theorem c6_mcp_ghost_never_raises (dep : Option String) (config : MCPGhostConfig) :
    (∃! r, mcp_ghost dep config = r) ∧
    (∀ e, dep = some e →
      (mcp_ghost dep config).success = false ∧
      (mcp_ghost dep config).errors =
        [{ iteration := 0, tool_name := "system",
           error := "Missing dependency: " ++ e,
           recovery_action := "Install required dependencies" }]) := by
  refine ⟨⟨_, rfl, fun _ h => h.symm⟩, ?_⟩
  intro e he
  subst he
  exact ⟨rfl, rfl⟩

theorem c6_mcp_ghost_never_raises_witness :
    (mcp_ghost (some "chuk_tool_processor") exampleConfig).success = false ∧
    (mcp_ghost (some "chuk_tool_processor") exampleConfig).errors =
      [{ iteration := 0, tool_name := "system",
         error := "Missing dependency: " ++ "chuk_tool_processor",
         recovery_action := "Install required dependencies" }] :=
  (c6_mcp_ghost_never_raises (some "chuk_tool_processor") exampleConfig).2
    "chuk_tool_processor" rfl

/-- C7 counterexample: in the dependency-failure branch the session
performed zero tool calls and the tool_chain is empty, yet the
execution_metadata holds success_rate 0 instead of the claimed 1. -/
theorem c7_success_rate_counterexample :
    (mcp_ghost (some "chuk_tool_processor") exampleConfig).tool_chain = [] ∧
    (mcp_ghost (some "chuk_tool_processor") exampleConfig).execution_metadata.success_rate
      = 0 ∧
    (0 : Rat) ≠ 1 :=
  ⟨rfl, rfl, by norm_num⟩

/-- C7 amended: when the dependencies import successfully, the result
has an empty tool_chain, zero tool calls, and success_rate 1; the
degenerate dependency-failure result also has an empty tool_chain but
reports success_rate 0. -/
theorem c7_success_rate_amended (dep : Option String) (config : MCPGhostConfig) :
    (dep = none →
      (mcp_ghost dep config).tool_chain = [] ∧
      (mcp_ghost dep config).execution_metadata.success_rate = 1) ∧
    (∀ e, dep = some e →
      (mcp_ghost dep config).tool_chain = [] ∧
      (mcp_ghost dep config).execution_metadata.success_rate = 0) := by
  constructor
  · intro h
    subst h
    exact ⟨rfl, rfl⟩
  · intro e h
    subst h
    exact ⟨rfl, rfl⟩

theorem c7_success_rate_amended_witness :
    (mcp_ghost none exampleConfig).tool_chain = [] ∧
    (mcp_ghost none exampleConfig).execution_metadata.success_rate = 1 :=
  (c7_success_rate_amended none exampleConfig).1 rfl

/-- C8: the source contradicts the claim. For a configuration whose
provider string lowers to none of openai, anthropic or gemini, the
placeholder body of mcp_ghost, with all dependencies importable, still
returns the fixed success result: success true, no errors, the
placeholder summary; no provider selection and no unsupported-provider
failure ever happens. -/
theorem c8_unsupported_provider_not_rejected :
    str_lower badProviderConfig.provider ≠ "openai" ∧
    str_lower badProviderConfig.provider ≠ "anthropic" ∧
    str_lower badProviderConfig.provider ≠ "gemini" ∧
    (mcp_ghost none badProviderConfig).success = true ∧
    (mcp_ghost none badProviderConfig).errors = [] ∧
    (mcp_ghost none badProviderConfig).summary =
      "MCP-Ghost placeholder execution completed" :=
  ⟨by decide, by decide, by decide, rfl, rfl, rfl⟩

/-- C9 counterexample: the empty list vacuously satisfies the condition
that every element is a text record, so the claim as stated requires the
newline join of no strings, the empty string; the formatter instead
returns the json text of the empty list, as the tests of the repository
require. -/
theorem c9_format_empty_list_counterexample :
    ([] : List Value).all isTextRecord = true ∧
    joinNewline (([] : List Value).map textField) = "" ∧
    format_tool_response (.vList []) = "[]" ∧
    ("[]" : String) ≠ "" :=
  ⟨rfl, rfl, by decide, by decide⟩

/-- C9 amended: format_tool_response returns a string by the priority
algorithm: a string input is returned unchanged, including the empty
string; a non-empty sequence in which every element is a mapping with
type text and a text key yields the text fields joined with newline
separators; None formats to the literal text None; any other value is
json-serialized, falling back to its plain string representation when
serialization fails, as for circular or non-serializable structures; and
the operation is total and deterministic, never raising. -/
theorem c9_format_tool_response_spec (v : Value) :
    (∀ s, v = .vStr s → format_tool_response v = s) ∧
    (∀ xs, v = .vList xs → xs ≠ [] → xs.all isTextRecord = true →
      format_tool_response v = joinNewline (xs.map textField)) ∧
    (v = .vNone → format_tool_response v = "None") ∧
    ((∀ s, v ≠ .vStr s) → v ≠ .vNone →
      (∀ xs, v = .vList xs → xs = [] ∨ xs.all isTextRecord = false) →
      format_tool_response v = fallbackSerialize v) ∧
    (∃! s, format_tool_response v = s) := by
  refine ⟨?_, ?_, ?_, ?_, ⟨_, rfl, fun _ h => h.symm⟩⟩
  · intro s h
    subst h
    rfl
  · intro xs h hne hall
    subst h
    have hne' : xs.isEmpty = false := by
      cases xs with
      | nil => exact absurd rfl hne
      | cons y ys => rfl
    simp [format_tool_response, hne', hall]
  · intro h
    subst h
    rfl
  · intro hs hn hl
    cases v with
    | vStr s => exact absurd rfl (hs s)
    | vNone => exact absurd rfl hn
    | vList xs =>
      rcases hl xs rfl with h | h
      · subst h
        rfl
      · simp [format_tool_response, h]
    | vBool b => rfl
    | vInt n => rfl
    | vDict kvs => rfl
    | vObj s => rfl

theorem c9_format_tool_response_spec_witness :
    format_tool_response (.vList [.vDict [("type", .vStr "text"), ("text", .vStr "a")],
      .vDict [("type", .vStr "text"), ("text", .vStr "b")]]) = "a" ++ "\n" ++ "b" := by
  have h := (c9_format_tool_response_spec
    (.vList [.vDict [("type", .vStr "text"), ("text", .vStr "a")],
      .vDict [("type", .vStr "text"), ("text", .vStr "b")]])).2.1
    [.vDict [("type", .vStr "text"), ("text", .vStr "a")],
      .vDict [("type", .vStr "text"), ("text", .vStr "b")]]
    rfl (by simp) (by decide)
  exact h.trans (by decide)

/-- C10: the result of mcp_ghost does not depend on any field of the
configuration: for a fixed availability of the imported dependencies,
any two configurations yield equal results in every field. -/
theorem c10_result_independent_of_config (dep : Option String)
    (cfg1 cfg2 : MCPGhostConfig) :
    mcp_ghost dep cfg1 = mcp_ghost dep cfg2 := by
  cases dep <;> rfl

end MCPGhost
